import Mathlib

/-!
Verification of the ToggleTrack LINE bot (src/main.py, src/v3.py) against its
natural-language specification.

The development is a shallow embedding of the two near-identical source files.
Pure string and arithmetic code is translated directly; the credential store
(toggl_users.json) is an association list threaded through the handlers; the
remote Toggl API is an environment record (TogglEnv) whose fields hold the
responses the remote would return, and every outgoing request is recorded in a
trace of ApiCall values so that remote side effects are observable.

Boundary functions of the Python standard library are modelled for the inputs
this program feeds them:
- str.lower, str.split, str.strip and int(...) are modelled for ASCII text
  (pyLower, pySplit, pyInt); the bot feeds them chat text and numeric tokens.
- datetime.fromisoformat is modelled for strings of the shape
  YYYY-MM-DD[T HH:MM[:SS]][+HH:MM], the shape the Toggl API returns; a parse
  failure is the None that the except-branches of the source turn into a
  skipped entry or an error reply.
- aware datetimes are converted through an epoch-second representation using
  the standard civil-calendar algorithms (daysFromCivil, civilFromDays), so
  astimezone(JST) and datetime subtraction are exact; a naive datetime is
  treated as UTC (every string the program consumes carries an offset).
-/

/-- Model of Python str.lower restricted to ASCII letters (Char.toLower maps
only A-Z; the command keywords and all counterexamples are ASCII). Used by
process_command (main.py line 399) and start_time_entry (line 146). -/
def pyLower (s : String) : String := ⟨s.data.map Char.toLower⟩

/-- Splitting loop of the str.split model: collect maximal runs of
non-whitespace characters. -/
def pySplitAux : List Char → List Char → List String
  | [], cur => if cur.isEmpty then [] else [⟨cur.reverse⟩]
  | c :: cs, cur =>
    if c.isWhitespace then
      if cur.isEmpty then pySplitAux cs []
      else (⟨cur.reverse⟩ : String) :: pySplitAux cs []
    else pySplitAux cs (c :: cur)

/-- Model of Python str.split with no separator: split on whitespace runs and
drop empty pieces (main.py line 399). -/
def pySplit (s : String) : List String := pySplitAux s.data []

/-- The token list the dispatcher computes: message.lower().split()
(main.py line 399, v3.py line 422). -/
def pyTokens (message : String) : List String := pySplit (pyLower message)

/-- Model of the Python slice s[:n]: the first n characters. -/
def pyTake (s : String) (n : Nat) : String := ⟨s.data.take n⟩

/-- Model of Python sep.join for the nonempty-separator uses of the source. -/
def joinSep (sep : String) : List String → String
  | [] => ""
  | [x] => x
  | x :: y :: xs => x ++ sep ++ joinSep sep (y :: xs)

/-- Splitting a rendered message at newline characters (used to state the
line structure of a report; models str.split with a newline separator). -/
def splitLinesAux : List Char → List Char → List String
  | [], cur => [⟨cur.reverse⟩]
  | c :: cs, cur =>
    if c == '\n' then (⟨cur.reverse⟩ : String) :: splitLinesAux cs []
    else splitLinesAux cs (c :: cur)

/-- The list of newline-separated lines of a string. -/
def splitLines (s : String) : List String := splitLinesAux s.data []

/-- Model of Python str.strip with no argument: drop ASCII whitespace from
both ends. -/
def trimChars (cs : List Char) : List Char :=
  ((cs.dropWhile Char.isWhitespace).reverse.dropWhile Char.isWhitespace).reverse

/-- Digit loop of the int(...) model: decimal digits with single underscores
allowed between digits, as in Python 3. -/
def pyDigits : Nat → Bool → List Char → Option Nat
  | acc, prev, [] => if prev then some acc else none
  | acc, prev, c :: cs =>
    if c.isDigit then pyDigits (10 * acc + (c.toNat - 48)) true cs
    else if c == '_' && prev then pyDigits acc false cs
    else none

/-- Model of Python int(str): strip whitespace, optional sign, decimal digits
with optional single underscores; none models the ValueError branch. -/
def pyInt (s : String) : Option Int :=
  match trimChars s.data with
  | '+' :: cs => (pyDigits 0 false cs).map (fun n => (n : Int))
  | '-' :: cs => (pyDigits 0 false cs).map (fun n => -(n : Int))
  | cs => (pyDigits 0 false cs).map (fun n => (n : Int))

/-- Gregorian leap year test. -/
def isLeap (y : Nat) : Bool := y % 4 == 0 && (y % 100 != 0 || y % 400 == 0)

/-- Days in a month of the proleptic Gregorian calendar. -/
def daysInMonth (y m : Nat) : Nat :=
  if m == 2 then (if isLeap y then 29 else 28)
  else if m == 4 || m == 6 || m == 9 || m == 11 then 30
  else 31

/-- Days since 1970-01-01 of a civil date (standard era-based algorithm). -/
def daysFromCivil (y m d : Nat) : Int :=
  let y1 := if m ≤ 2 then y - 1 else y
  let era := y1 / 400
  let yoe := y1 % 400
  let mp := if 2 < m then m - 3 else m + 9
  let doy := (153 * mp + 2) / 5 + d - 1
  let doe := yoe * 365 + yoe / 4 - yoe / 100 + doy
  ((era * 146097 + doe : Nat) : Int) - 719468

/-- Civil date (year, month, day) of a count of days since 1970-01-01. -/
def civilFromDays (z : Int) : Nat × Nat × Nat :=
  let z1 := z + 719468
  let era := z1.fdiv 146097
  let doe := (z1 - era * 146097).toNat
  let yoe := (doe - doe / 1460 + doe / 36524 - doe / 146096) / 365
  let doy := doe - (365 * yoe + yoe / 4 - yoe / 100)
  let mp := (5 * doy + 2) / 153
  let d := doy - (153 * mp + 2) / 5 + 1
  let m := if mp < 10 then mp + 3 else mp - 9
  let y := (era * 400).toNat + yoe + (if m ≤ 2 then 1 else 0)
  (y, m, d)

/-- A parsed Python datetime value; tzOffsetMin is none for a naive value. -/
structure PyDateTime where
  year : Nat
  month : Nat
  day : Nat
  hour : Nat
  minute : Nat
  second : Nat
  tzOffsetMin : Option Int
deriving DecidableEq

/-- Read exactly k decimal digits from the front of a character list. -/
def readFixed : Nat → Nat → List Char → Option (Nat × List Char)
  | 0, acc, cs => some (acc, cs)
  | _ + 1, _, [] => none
  | k + 1, acc, c :: cs =>
    if c.isDigit then readFixed k (10 * acc + (c.toNat - 48)) cs else none

/-- Consume one expected character. -/
def expectChar (c : Char) : List Char → Option (List Char)
  | [] => none
  | x :: xs => if x == c then some xs else none

/-- Parse an optional trailing UTC offset of the form +HH:MM or -HH:MM. -/
def parseOffset : List Char → Option (Option Int)
  | [] => some none
  | '+' :: r => do
      let (hh, r1) ← readFixed 2 0 r
      let r2 ← expectChar ':' r1
      let (mm, r3) ← readFixed 2 0 r2
      guard r3.isEmpty
      guard (hh ≤ 23 && mm ≤ 59)
      some (some ((hh : Int) * 60 + mm))
  | '-' :: r => do
      let (hh, r1) ← readFixed 2 0 r
      let r2 ← expectChar ':' r1
      let (mm, r3) ← readFixed 2 0 r2
      guard r3.isEmpty
      guard (hh ≤ 23 && mm ≤ 59)
      some (some (-((hh : Int) * 60 + mm)))
  | _ => none

/-- Parse HH:MM with optional :SS, followed by an optional offset. -/
def parseTime (cs : List Char) : Option (Nat × Nat × Nat × Option Int) := do
  let (h, r1) ← readFixed 2 0 cs
  let r2 ← expectChar ':' r1
  let (mi, r3) ← readFixed 2 0 r2
  match r3 with
  | ':' :: r4 => do
      let (ss, r5) ← readFixed 2 0 r4
      let tz ← parseOffset r5
      guard (h ≤ 23 && mi ≤ 59 && ss ≤ 59)
      some (h, mi, ss, tz)
  | r4 => do
      let tz ← parseOffset r4
      guard (h ≤ 23 && mi ≤ 59)
      some (h, mi, 0, tz)

/-- Model of datetime.fromisoformat for the strings this program consumes:
date, optional T or space plus time, optional +HH:MM offset, with calendar
validation; none models the ValueError branch. -/
def fromisoformat (s : String) : Option PyDateTime := do
  let (y, r1) ← readFixed 4 0 s.data
  let r2 ← expectChar '-' r1
  let (mo, r3) ← readFixed 2 0 r2
  let r4 ← expectChar '-' r3
  let (d, r5) ← readFixed 2 0 r4
  guard (1 ≤ y && 1 ≤ mo && mo ≤ 12 && 1 ≤ d && d ≤ daysInMonth y mo)
  match r5 with
  | [] => some ⟨y, mo, d, 0, 0, 0, none⟩
  | c :: r6 =>
    if c == 'T' || c == ' ' then do
      let (h, mi, ss, tz) ← parseTime r6
      some ⟨y, mo, d, h, mi, ss, tz⟩
    else none

/-- Instant of an aware datetime in epoch seconds (naive treated as UTC; every
string the program consumes carries an explicit offset). -/
def toEpoch (dt : PyDateTime) : Int :=
  daysFromCivil dt.year dt.month dt.day * 86400
    + dt.hour * 3600 + dt.minute * 60 + dt.second
    - (dt.tzOffsetMin.getD 0) * 60

/-- Model of .astimezone(JST): same instant rendered at offset +09:00. -/
def astimezoneJST (dt : PyDateTime) : PyDateTime :=
  let w := toEpoch dt + 32400
  let days := w.fdiv 86400
  let tod := (w.emod 86400).toNat
  let c := civilFromDays days
  ⟨c.1, c.2.1, c.2.2, tod / 3600, tod % 3600 / 60, tod % 60, some 540⟩

/-- Model of .replace(tzinfo=UTC) followed by epoch conversion: the scheduler
(main.py line 344) discards the parsed offset and reinterprets the wall-clock
fields as UTC. -/
def toEpochForcedUTC (dt : PyDateTime) : Int :=
  daysFromCivil dt.year dt.month dt.day * 86400
    + dt.hour * 3600 + dt.minute * 60 + dt.second

/-- Zero-padded two-digit rendering of a Nat. -/
def pad2 (n : Nat) : String := if n < 10 then "0" ++ toString n else toString n

/-- Zero-padded four-digit rendering of a Nat (isoformat years). -/
def pad4 (n : Nat) : String :=
  if n < 10 then "000" ++ toString n
  else if n < 100 then "00" ++ toString n
  else if n < 1000 then "0" ++ toString n
  else toString n

/-- Model of the Python format spec 02d on an Int. -/
def fmt2 (n : Int) : String := if 0 ≤ n ∧ n < 10 then "0" ++ toString n else toString n

/-- The HH:MM rendering of a millisecond duration used twice by format_report
(main.py lines 296 and 301): dur//3600000 and (dur%3600000)//60000. -/
def msHM (n : Int) : String := fmt2 (n.fdiv 3600000) ++ ":" ++ fmt2 ((n.emod 3600000).fdiv 60000)

/-- Model of date().isoformat() on a PyDateTime. -/
def dateIso (dt : PyDateTime) : String :=
  pad4 dt.year ++ "-" ++ pad2 dt.month ++ "-" ++ pad2 dt.day

/-- Model of strftime with format m/d H:M (main.py line 293). -/
def strftimeMDHM (dt : PyDateTime) : String :=
  pad2 dt.month ++ "/" ++ pad2 dt.day ++ " " ++ pad2 dt.hour ++ ":" ++ pad2 dt.minute

/-- Calendar date, in JST, of an instant given in epoch seconds, rendered as
isoformat; this is .date().isoformat() of an aware JST datetime, as used by
get_report (main.py lines 171 and 172). -/
def epochDateIsoJST (t : Int) : String :=
  let c := civilFromDays ((t + 32400).fdiv 86400)
  pad4 c.1 ++ "-" ++ pad2 c.2.1 ++ "-" ++ pad2 c.2.2

/-- One record of toggl_users.json, written by handle_register
(main.py lines 223 to 227). -/
structure Creds where
  user_name : String
  api_key : String
  workspace_id : String
deriving DecidableEq

/-- The credential store: the user-id keyed mapping held in toggl_users.json. -/
abbrev Store := List (String × Creds)

/-- get_toggl_credentials (main.py lines 199 and 200): dictionary lookup. -/
def get_toggl_credentials (store : Store) (uid : String) : Option Creds :=
  (store.find? (fun kv => kv.1 == uid)).map (fun kv => kv.2)

/-- Dictionary update users[user_id] = data: replace in place or append. -/
def setKey (store : Store) (uid : String) (c : Creds) : Store :=
  match store with
  | [] => [(uid, c)]
  | kv :: rest => if kv.1 == uid then (uid, c) :: rest else kv :: setKey rest uid c

/-- save_user_credentials (main.py lines 202 to 205). -/
def save_user_credentials (store : Store) (uid : String) (c : Creds) : Store :=
  setKey store uid c

/-- A project as returned by get_projects; the name key may be absent
(the source reads p.get("name", "")). -/
structure Project where
  id : Int
  name : Option String
deriving DecidableEq

/-- A remote time entry as consumed by the handlers; start, duration and
description are read through .get or item access in the source. -/
structure Entry where
  id : Int
  start : Option String
  duration : Option Int
  description : Option String
deriving DecidableEq

/-- A raw detail-report entry as consumed by format_report
(main.py lines 283 to 297): every field is read with a .get default. -/
structure RawEntry where
  start : Option String
  dur : Option Int
  project : Option String
  description : Option String
deriving DecidableEq

/-- The JSON payload of the create call built by start_time_entry
(main.py lines 150 to 157); the start timestamp field is omitted from the
model because no claim concerns it. -/
structure Payload where
  created_with : String
  workspace_id : Int
  description : String
  project_id : Int
  duration : Int
deriving DecidableEq

deriving instance DecidableEq for Except

/-- Trace element: one outgoing request to the Toggl API. -/
inductive ApiCall where
  | getCurrent : ApiCall
  | getProjects : ApiCall
  | createEntry : Payload → ApiCall
  | stopEntry : Int → ApiCall
  | reportDetails : String → String → ApiCall
deriving DecidableEq

/-- The remote responses: what the Toggl API would answer each request with.
A none or empty field also covers the non-200 and transport-error cases,
which the client maps to None or [] (main.py lines 127 to 133 and 141). -/
structure TogglEnv where
  currentEntry : Option Entry
  projects : List Project
  createResult : Option Entry
  stopResult : Option Entry
  reportData : List RawEntry

/-- start_time_entry (main.py lines 143 to 158): fetch projects, resolve the
name case-insensitively, return None without a create call when no match;
otherwise build the payload (int(workspace_id) may raise, modelled as the
error case) and issue the create call. The trace records the requests. -/
def start_time_entry (workspace_id : String) (env : TogglEnv)
    (project_name description : String) : Except String (Option Entry) × List ApiCall :=
  match env.projects.find? (fun p => pyLower (p.name.getD "") == pyLower project_name) with
  | none => (Except.ok none, [ApiCall.getProjects])
  | some p =>
    match pyInt workspace_id with
    | none => (Except.error ("invalid literal for int: " ++ workspace_id), [ApiCall.getProjects])
    | some w =>
      (Except.ok env.createResult,
       [ApiCall.getProjects, ApiCall.createEntry ⟨"LINE Bot", w, pyTake description 255, p.id, -1⟩])

/-- stop_current_entry (main.py lines 160 to 165): look up the current entry;
if none, return None without issuing the stop request. -/
def stop_current_entry (env : TogglEnv) : Option Entry × List ApiCall :=
  match env.currentEntry with
  | none => (none, [ApiCall.getCurrent])
  | some c => (env.stopResult, [ApiCall.getCurrent, ApiCall.stopEntry c.id])

/-- handle_register (main.py lines 216 to 228): arity check, int validation of
the third argument, then persist the record with the name cut to 50 chars. -/
def handle_register (store : Store) (uid : String) (args : List String) : String × Store :=
  match args with
  | a0 :: a1 :: a2 :: _ =>
    match pyInt a2 with
    | none => ("ワークスペースIDは数値で入力してください", store)
    | some _ => ("✅ 登録完了", save_user_credentials store uid ⟨pyTake a0 50, a1, a2⟩)
  | _ => ("登録形式: register [ユーザー名] [APIキー] [ワークスペースID]", store)

/-- handle_start (main.py lines 230 to 242): the return value of
start_time_entry is discarded; the confirmation is returned whenever no
exception was raised, the error reply only on an exception. -/
def handle_start (store : Store) (uid : String) (args : List String) (env : TogglEnv) :
    String × List ApiCall :=
  match get_toggl_credentials store uid with
  | none => ("⚠️ まずregisterコマンドで登録してください", [])
  | some creds =>
    match args with
    | [] => ("プロジェクト名を入力してください", [])
    | a0 :: rest =>
      let r := start_time_entry creds.workspace_id env a0 (joinSep " " rest)
      match r.1 with
      | Except.ok _ => ("⏱️ " ++ a0 ++ " の計測を開始しました", r.2)
      | Except.error e => ("🚨 開始エラー: " ++ e, r.2)

/-- handle_stop (main.py lines 244 to 258): duration formatted with // 3600
and % 3600 // 60 (floor division, as in Python). -/
def handle_stop (store : Store) (uid : String) (env : TogglEnv) : String × List ApiCall :=
  match get_toggl_credentials store uid with
  | none => ("⚠️ まずregisterコマンドで登録してください", [])
  | some _ =>
    let r := stop_current_entry env
    match r.1 with
    | some s =>
      let dur := s.duration.getD 0
      ("⏹️ 計測停止 (時間: " ++ toString (dur.fdiv 3600) ++ "時間"
        ++ toString ((dur.emod 3600).fdiv 60) ++ "分)", r.2)
    | none => ("ℹ️ 実行中の計測はありません", r.2)

/-- handle_status (main.py lines 260 to 278): elapsed is a timedelta and the
display reads elapsed.seconds, which is the total elapsed seconds reduced
modulo 86400 (whole days are excluded); the KeyError and ValueError raised by
item access and fromisoformat land in the except branch. -/
def handle_status (store : Store) (uid : String) (env : TogglEnv) (now : Int) :
    String × List ApiCall :=
  match get_toggl_credentials store uid with
  | none => ("⚠️ まずregisterコマンドで登録してください", [])
  | some _ =>
    match env.currentEntry with
    | some entry =>
      if entry.duration.getD 0 < 0 then
        match entry.start with
        | none => ("🚨 ステータス取得エラー: KeyError", [ApiCall.getCurrent])
        | some s =>
          match fromisoformat s with
          | none => ("🚨 ステータス取得エラー: ValueError", [ApiCall.getCurrent])
          | some dt =>
            let secs := (now - toEpoch dt).emod 86400
            ("🔄 計測中\nプロジェクト: " ++ entry.description.getD "未設定"
              ++ "\n経過時間: " ++ toString (secs.fdiv 3600) ++ "時間"
              ++ toString ((secs.emod 3600).fdiv 60) ++ "分", [ApiCall.getCurrent])
      else ("ℹ️ 現在計測中のプロジェクトはありません", [ApiCall.getCurrent])
    | none => ("ℹ️ 現在計測中のプロジェクトはありません", [ApiCall.getCurrent])

/-- Dictionary update daily_total[k] = daily_total.get(k, 0) + v keeping the
insertion position of an existing key. -/
def updateTotal (totals : List (String × Int)) (k : String) (v : Int) : List (String × Int) :=
  match totals with
  | [] => [(k, v)]
  | kv :: rest => if kv.1 == k then (kv.1, kv.2 + v) :: rest else kv :: updateTotal rest k v

/-- Insertion step of the sort that models Python sorted on dict items. -/
def insertSorted (kv : String × Int) : List (String × Int) → List (String × Int)
  | [] => [kv]
  | x :: xs => if kv.1 < x.1 then kv :: x :: xs else x :: insertSorted kv xs

/-- Model of sorted(daily_total.items()): sort by key in code-point order. -/
def sortByKey : List (String × Int) → List (String × Int)
  | [] => []
  | x :: xs => insertSorted x (sortByKey xs)

/-- Model of the Python slice report[-20:]. -/
def lastN (n : Nat) (l : List String) : List String := l.drop (l.length - n)

/-- Loop body of format_report (main.py lines 283 to 299): a falsy start field
skips the entry; a fromisoformat failure is caught and skips the entry;
otherwise the detail line is appended and the daily total updated. -/
def reportStep (acc : List String × List (String × Int)) (entry : RawEntry) :
    List String × List (String × Int) :=
  match entry.start with
  | none => acc
  | some s =>
    if s = "" then acc
    else
      match fromisoformat s with
      | none => acc
      | some dt0 =>
        let start := astimezoneJST dt0
        let date_str := dateIso start
        let dur := entry.dur.getD 0
        let line := strftimeMDHM start ++ " | " ++ pyTake (entry.project.getD "未設定") 20
          ++ " | " ++ pyTake (entry.description.getD "未設定") 30 ++ " | " ++ msHM dur
        (acc.1 ++ [line], updateTotal acc.2 date_str dur)

/-- format_report (main.py lines 280 to 309): per-date totals sorted by date,
then the last 20 detail lines, each section separately length-capped. -/
def format_report (entries : List RawEntry) : String :=
  let acc := entries.foldl reportStep ([], [])
  let summary := (sortByKey acc.2).map (fun kv => "📅 " ++ kv.1 ++ ": " ++ msHM kv.2)
  "📊 稼働レポート\n" ++ pyTake (joinSep "\n" summary) 2000
    ++ "\n\n詳細:\n" ++ pyTake (joinSep "\n" (lastN 20 acc.1)) 3000

/-- handle_report (main.py lines 311 to 329): days defaults to 1, is parsed
with int(...) and clamped with min(days, MAX_REPORT_DAYS); there is no lower
clamp. The issued request carries the calendar dates, in JST, of now minus
days times 86400 seconds and of now. -/
def handle_report (store : Store) (uid : String) (args : List String) (env : TogglEnv)
    (now : Int) : String × List ApiCall :=
  match get_toggl_credentials store uid with
  | none => ("⚠️ まずregisterコマンドで登録してください", [])
  | some _ =>
    let days? : Option Int :=
      match args with
      | [] => some 1
      | a0 :: _ => (pyInt a0).map (fun n => min n 30)
    match days? with
    | none => ("日数は数値で入力してください", [])
    | some days =>
      (format_report env.reportData,
       [ApiCall.reportDetails (epochDateIsoJST (now - days * 86400)) (epochDateIsoJST now)])

/-- help_message (main.py lines 427 to 438). -/
def help_message : String :=
  "📚 使い方\n"
    ++ "・登録: register [ユーザー名] [APIキー] [ワークスペースID]\n"
    ++ "・開始: start <プロジェクト名> [説明]\n"
    ++ " ===指定できる、プロジェクト名一覧 === \n"
    ++ " < システム開発、LLM開発、バックエンド開発、フロントエンド開発、リサーチ、先方MT、資料作成、営業 > \n"
    ++ "・停止: stop\n"
    ++ "・状態: status\n"
    ++ "・レポート: report [日数]\n"
    ++ "・ヘルプ: help"

/-- help_message (v3.py lines 452 to 461). -/
def help_message_v3 : String :=
  "📚 使い方\n"
    ++ "・登録: register [ユーザー名] [APIキー] [ワークスペースID]\n"
    ++ "・開始: start [プロジェクト名] [説明]\n"
    ++ "・停止: stop\n"
    ++ "・状態: status\n"
    ++ "・レポート: report [日数]\n"
    ++ "・ヘルプ: help"

/-- process_command (main.py lines 398 to 425): response is initialised to
the empty string, so an empty message and an unrecognized first token both
reply with the empty string; the result is the reply, the store after the
command and the trace of remote requests. -/
def process_command (store : Store) (uid : String) (message : String) (env : TogglEnv)
    (now : Int) : String × Store × List ApiCall :=
  match pyTokens message with
  | [] => ("", store, [])
  | cmd :: args =>
    if cmd = "register" then
      let r := handle_register store uid args
      (r.1, r.2, [])
    else if cmd = "start" then
      let r := handle_start store uid args env
      (r.1, store, r.2)
    else if cmd = "stop" then
      let r := handle_stop store uid env
      (r.1, store, r.2)
    else if cmd = "status" then
      let r := handle_status store uid env now
      (r.1, store, r.2)
    else if cmd = "report" then
      let r := handle_report store uid args env now
      (r.1, store, r.2)
    else if cmd = "help" then (help_message, store, [])
    else ("", store, [])

/-- process_command (v3.py lines 421 to 450): same dispatch over the same
handlers, but response is initialised to a fixed notice and an empty message
replies with the usage text. -/
def process_command_v3 (store : Store) (uid : String) (message : String) (env : TogglEnv)
    (now : Int) : String × Store × List ApiCall :=
  match pyTokens message with
  | [] => (help_message_v3, store, [])
  | cmd :: args =>
    if cmd = "register" then
      let r := handle_register store uid args
      (r.1, r.2, [])
    else if cmd = "start" then
      let r := handle_start store uid args env
      (r.1, store, r.2)
    else if cmd = "stop" then
      let r := handle_stop store uid env
      (r.1, store, r.2)
    else if cmd = "status" then
      let r := handle_status store uid env now
      (r.1, store, r.2)
    else if cmd = "report" then
      let r := handle_report store uid args env now
      (r.1, store, r.2)
    else if cmd = "help" then (help_message_v3, store, [])
    else ("コマンドが認識できません。helpでヘルプを表示します。", store, [])

/-- Per-user remote state seen by one scheduler sweep, plus whether the LINE
push succeeds. -/
structure UserEnv where
  currentEntry : Option Entry
  pushOk : Bool

/-- Body of the per-user try block of check_long_entries (main.py lines 341
to 356): fetch the current entry; if running, parse its start (KeyError or
ValueError may be raised), reinterpret it as UTC, and push a reminder when
the elapsed seconds exceed the threshold (10 in main.py); the Except.error
cases are exactly the exceptions the inner except catches. -/
def process_user (_creds : Creds) (env : UserEnv) (now : Int) : Except String (Option String) :=
  match env.currentEntry with
  | none => Except.ok none
  | some entry =>
    if entry.duration.getD 0 < 0 then
      match entry.start with
      | none => Except.error "KeyError: start"
      | some s =>
        match fromisoformat s with
        | none => Except.error ("ValueError: invalid isoformat string: " ++ s)
        | some dt =>
          let elapsed := now - toEpochForcedUTC dt
          if 10 < elapsed then
            if env.pushOk then
              Except.ok (some ("⚠️ 長時間稼働中！\nプロジェクト: " ++ entry.description.getD "未設定"
                ++ "\n経過時間: " ++ toString (elapsed.fdiv 3600) ++ "時間"
                ++ toString ((elapsed.emod 3600).fdiv 60) ++ "分"))
            else Except.error "push failed"
          else Except.ok none
    else Except.ok none

/-- What one user iteration of a sweep ended as. -/
inductive SweepOutcome where
  | pushed : String → SweepOutcome
  | quiet : SweepOutcome
  | errored : String → SweepOutcome
deriving DecidableEq

/-- One sweep of check_long_entries over users.items() (main.py lines 339 to
358): the try and except around the body turn any raised exception into a
logged outcome of that single iteration, and the loop continues. -/
def check_users_once : List (String × Creds) → (String → UserEnv) → Int → List (String × SweepOutcome)
  | [], _, _ => []
  | (uid, creds) :: rest, envOf, now =>
    let outcome :=
      match process_user creds (envOf uid) now with
      | Except.ok (some m) => SweepOutcome.pushed m
      | Except.ok none => SweepOutcome.quiet
      | Except.error e => SweepOutcome.errored e
    (uid, outcome) :: check_users_once rest envOf now

/-! Concrete values used by witnesses and counterexamples. -/

/-- A remote with no running entry, no projects and no report data. -/
def envDefault : TogglEnv := ⟨none, [], none, none, []⟩

/-- A store holding one registered user. -/
def storeReg : Store := [("u", ⟨"alice", "key", "42"⟩)]

/-- A remote with a single project whose name is Dev. -/
def envOneProject : TogglEnv := ⟨none, [⟨7, some "Dev"⟩], none, none, []⟩

/-- The single report entry of the formatting example in the specification. -/
def reportEntryExample : RawEntry := ⟨some "2024-01-01T09:00:00+09:00", some 3600000, some "P", some "D"⟩

/-- A running entry that started at the UTC new year 2024. -/
def entryW : Entry := ⟨1, some "2024-01-01T00:00:00+00:00", some (-1), some "proj"⟩

/-- The parse of the start string of entryW. -/
def dtW : PyDateTime := ⟨2024, 1, 1, 0, 0, 0, some 0⟩

/-- A remote whose current entry is entryW. -/
def envRunning : TogglEnv := ⟨some entryW, [], none, none, []⟩

/-- A per-user state whose running entry lacks a start field, so processing
that user raises KeyError. -/
def userEnvErr : UserEnv := ⟨some ⟨1, none, some (-1), none⟩, true⟩

/-! Helper lemmas. -/

/-- Looking up the key just saved returns the saved record. -/
theorem get_save_self (store : Store) (uid : String) (c : Creds) :
    get_toggl_credentials (save_user_credentials store uid c) uid = some c := by
  induction store with
  | nil => simp [save_user_credentials, setKey, get_toggl_credentials, List.find?]
  | cons kv rest ih =>
    by_cases h : kv.1 == uid
    · simp [save_user_credentials, setKey, h, get_toggl_credentials, List.find?]
    · simp only [save_user_credentials] at ih
      simp [save_user_credentials, setKey, h, get_toggl_credentials, List.find?] at ih ⊢
      exact ih

/-- A sweep visits exactly the users of the loaded mapping, in order. -/
theorem check_users_once_fst (users : List (String × Creds)) (envOf : String → UserEnv)
    (now : Int) :
    (check_users_once users envOf now).map Prod.fst = users.map Prod.fst := by
  induction users with
  | nil => rfl
  | cons kv rest ih =>
    obtain ⟨uid, c⟩ := kv
    simp [check_users_once, ih]

/-- Dividing the elapsed seconds reduced modulo one day by 3600 yields the
true elapsed hour count modulo 24. -/
theorem hours_emod_split (d : Int) (h : 0 ≤ d) :
    (d.emod 86400).fdiv 3600 = (d.fdiv 3600).emod 24 := by
  obtain ⟨n, rfl⟩ := Int.eq_ofNat_of_zero_le h
  rw [Int.fdiv_eq_ediv _ (by norm_num), Int.fdiv_eq_ediv _ (by norm_num)]
  show ((n : Int) % 86400) / 3600 = ((n : Int) / 3600) % 24
  have hn := Nat.mod_mul_right_div_self n 3600 24
  norm_num at hn
  exact_mod_cast hn

/-- Claim C3: register with a third argument that does not parse as an
integer returns the numeric-format error message and leaves the credential
store unchanged. -/
theorem register_nonint_wid_no_mutation
    (store : Store) (uid a0 a1 a2 : String) (rest : List String)
    (h : pyInt a2 = none) :
    handle_register store uid (a0 :: a1 :: a2 :: rest)
      = ("ワークスペースIDは数値で入力してください", store) := by
  simp [handle_register, h]

/-- Witness for C3 at the argument list alice key 12x. -/
theorem register_nonint_wid_no_mutation_w :
    pyInt "12x" = none
    ∧ handle_register [] "u" ["alice", "key", "12x"]
        = ("ワークスペースIDは数値で入力してください", []) :=
  ⟨by decide, register_nonint_wid_no_mutation [] "u" "alice" "key" "12x" [] (by decide)⟩

/-- Claim C1 (amended): the end-to-end register round trip stores the tokens
of the lowercased message: the dispatcher lowercases the whole message before
splitting, so the persisted record holds the lowercased name truncated to 50
characters, the lowercased key and the lowercased workspace id. -/
theorem register_roundtrip_lowercase
    (store : Store) (uid message : String) (env : TogglEnv) (now : Int)
    (name key wid : String) (rest : List String) (n : Int)
    (htok : pyTokens message = "register" :: name :: key :: wid :: rest)
    (hwid : pyInt wid = some n) :
    get_toggl_credentials (process_command store uid message env now).2.1 uid
      = some ⟨pyTake name 50, key, wid⟩ := by
  have hget := get_save_self store uid ⟨pyTake name 50, key, wid⟩
  simp [process_command, htok, handle_register, hwid, hget]

/-- Witness for C1 (amended) at a lowercase message. -/
theorem register_roundtrip_lowercase_w :
    pyTokens "register bob key7 42" = ["register", "bob", "key7", "42"]
    ∧ pyInt "42" = some 42
    ∧ get_toggl_credentials
        (process_command [] "u" "register bob key7 42" envDefault 0).2.1 "u"
        = some ⟨pyTake "bob" 50, "key7", "42"⟩ :=
  ⟨by decide, by decide,
   register_roundtrip_lowercase [] "u" "register bob key7 42" envDefault 0
     "bob" "key7" "42" [] 42 (by decide) (by decide)⟩

/-- Counterexample to C1 as written: the message register Alice SecretKEY 42
does not round-trip to the record as it appeared in the message; the stored
name and key are lowercased. -/
theorem register_roundtrip_case_counterexample :
    get_toggl_credentials
        (process_command [] "u" "register Alice SecretKEY 42" envDefault 0).2.1 "u"
        = some ⟨"alice", "secretkey", "42"⟩
    ∧ get_toggl_credentials
        (process_command [] "u" "register Alice SecretKEY 42" envDefault 0).2.1 "u"
        ≠ some ⟨"Alice", "SecretKEY", "42"⟩ := by
  constructor
  · decide
  · decide

/-- Claim C2 (amended): report with argument 0 issues a zero-day range whose
since and until dates are both the current JST date, which differs from the
one-day range of report with no argument; the argument 9999 is clamped to a
thirty-day range. -/
theorem report_days_clamping
    (store : Store) (uid : String) (env : TogglEnv) (now : Int) (c : Creds)
    (hc : get_toggl_credentials store uid = some c) :
    handle_report store uid ["0"] env now
        = (format_report env.reportData,
           [ApiCall.reportDetails (epochDateIsoJST now) (epochDateIsoJST now)])
    ∧ handle_report store uid [] env now
        = (format_report env.reportData,
           [ApiCall.reportDetails (epochDateIsoJST (now - 86400)) (epochDateIsoJST now)])
    ∧ handle_report store uid ["9999"] env now
        = (format_report env.reportData,
           [ApiCall.reportDetails (epochDateIsoJST (now - 30 * 86400)) (epochDateIsoJST now)]) := by
  have h0 : pyInt "0" = some 0 := by decide
  have h9 : pyInt "9999" = some 9999 := by decide
  have hm0 : min (0 : Int) 30 = 0 := by decide
  have hm9 : min (9999 : Int) 30 = 30 := by decide
  refine ⟨?_, ?_, ?_⟩ <;> simp [handle_report, hc, h0, h9, hm0, hm9]

/-- Witness for C2 (amended) at the registered one-user store and epoch 0. -/
theorem report_days_clamping_w :
    get_toggl_credentials storeReg "u" = some ⟨"alice", "key", "42"⟩
    ∧ (handle_report storeReg "u" ["0"] envDefault 0
        = (format_report envDefault.reportData,
           [ApiCall.reportDetails (epochDateIsoJST 0) (epochDateIsoJST 0)])
      ∧ handle_report storeReg "u" [] envDefault 0
        = (format_report envDefault.reportData,
           [ApiCall.reportDetails (epochDateIsoJST ((0 : Int) - 86400)) (epochDateIsoJST 0)])
      ∧ handle_report storeReg "u" ["9999"] envDefault 0
        = (format_report envDefault.reportData,
           [ApiCall.reportDetails (epochDateIsoJST ((0 : Int) - 30 * 86400)) (epochDateIsoJST 0)])) :=
  ⟨by decide, report_days_clamping storeReg "u" envDefault 0 ⟨"alice", "key", "42"⟩ (by decide)⟩

/-- Counterexample to C2 as written: for a registered user, report 0 and
report with no argument are not identical; they request different ranges. -/
theorem report_zero_counterexample :
    handle_report storeReg "u" ["0"] envDefault 0
      ≠ handle_report storeReg "u" [] envDefault 0 := by decide

/-- Claim C4: handle_start discards the result of start_time_entry, so when
no project matches (start_time_entry returns None without a create call) the
reply is still the confirmation naming the project, not the start-error
text. -/
theorem start_confirms_despite_failed_start :
    (start_time_entry "42" envDefault "ghost" "").1 = Except.ok none
    ∧ (handle_start storeReg "u" ["ghost"] envDefault).1
        = "⏱️ ghost の計測を開始しました" := by
  constructor
  · decide
  · decide

/-- Claim C5 (amended): an inbound message whose first token is none of the
six recognized commands gets a fixed static reply with no remote request and
no store change; that reply is the empty string in main.py and the fixed
notice in v3.py, not the usage text. -/
theorem unknown_command_fixed_reply
    (store : Store) (uid message : String) (env : TogglEnv) (now : Int)
    (cmd : String) (args : List String)
    (htok : pyTokens message = cmd :: args)
    (hcmd : cmd ∉ (["register", "start", "stop", "status", "report", "help"] : List String)) :
    process_command store uid message env now = ("", store, [])
    ∧ process_command_v3 store uid message env now
        = ("コマンドが認識できません。helpでヘルプを表示します。", store, []) := by
  simp only [List.mem_cons, List.mem_singleton, not_or] at hcmd
  obtain ⟨h1, h2, h3, h4, h5, h6, -⟩ := hcmd
  exact ⟨by simp [process_command, htok, h1, h2, h3, h4, h5, h6],
         by simp [process_command_v3, htok, h1, h2, h3, h4, h5, h6]⟩

/-- Witness for C5 (amended) at the message foo. -/
theorem unknown_command_fixed_reply_w :
    pyTokens "foo" = ["foo"]
    ∧ ("foo" ∉ (["register", "start", "stop", "status", "report", "help"] : List String))
    ∧ process_command [] "u" "foo" envDefault 0 = ("", [], [])
    ∧ process_command_v3 [] "u" "foo" envDefault 0
        = ("コマンドが認識できません。helpでヘルプを表示します。", [], []) :=
  ⟨by decide, by decide,
   (unknown_command_fixed_reply [] "u" "foo" envDefault 0 "foo" [] (by decide) (by decide)).1,
   (unknown_command_fixed_reply [] "u" "foo" envDefault 0 "foo" [] (by decide) (by decide)).2⟩

/-- Counterexample to C5 as written: the reply to an unrecognized command is
not the static usage text in either source variant. -/
theorem unknown_command_counterexample :
    (process_command [] "u" "foo" envDefault 0).1 ≠ help_message
    ∧ (process_command_v3 [] "u" "foo" envDefault 0).1 ≠ help_message_v3 := by
  constructor
  · decide
  · decide

/-- Claim C6: for a registered user with no running entry, stop replies with
the no-running-entry message and the trace holds no stop request. -/
theorem stop_without_running_entry
    (store : Store) (uid : String) (env : TogglEnv) (c : Creds)
    (hc : get_toggl_credentials store uid = some c)
    (hcur : env.currentEntry = none) :
    handle_stop store uid env = ("ℹ️ 実行中の計測はありません", [ApiCall.getCurrent])
    ∧ ∀ i, ApiCall.stopEntry i ∉ (handle_stop store uid env).2 := by
  have h : handle_stop store uid env = ("ℹ️ 実行中の計測はありません", [ApiCall.getCurrent]) := by
    simp [handle_stop, hc, stop_current_entry, hcur]
  refine ⟨h, ?_⟩
  intro i
  simp [h]

/-- Witness for C6 at the one-user store and the empty remote. -/
theorem stop_without_running_entry_w :
    get_toggl_credentials storeReg "u" = some ⟨"alice", "key", "42"⟩
    ∧ envDefault.currentEntry = none
    ∧ handle_stop storeReg "u" envDefault = ("ℹ️ 実行中の計測はありません", [ApiCall.getCurrent])
    ∧ ∀ i, ApiCall.stopEntry i ∉ (handle_stop storeReg "u" envDefault).2 :=
  ⟨by decide, rfl,
   (stop_without_running_entry storeReg "u" envDefault ⟨"alice", "key", "42"⟩ (by decide) rfl).1,
   (stop_without_running_entry storeReg "u" envDefault ⟨"alice", "key", "42"⟩ (by decide) rfl).2⟩

/-- Claim C7: start_time_entry resolves the project name case-insensitively:
when no project matches up to lowercasing it returns None with no create
call; when the search finds a project and the workspace id parses, the create
call carries the description truncated to 255 characters and duration -1; and
the result only depends on the requested name through its lowercasing. -/
theorem start_time_entry_resolution
    (workspace_id : String) (env : TogglEnv) (project_name description : String) :
    ((∀ p ∈ env.projects, pyLower (p.name.getD "") ≠ pyLower project_name) →
      start_time_entry workspace_id env project_name description
        = (Except.ok none, [ApiCall.getProjects]))
    ∧ (∀ p w,
        env.projects.find? (fun q => pyLower (q.name.getD "") == pyLower project_name) = some p →
        pyInt workspace_id = some w →
        start_time_entry workspace_id env project_name description
          = (Except.ok env.createResult,
             [ApiCall.getProjects,
              ApiCall.createEntry ⟨"LINE Bot", w, pyTake description 255, p.id, -1⟩]))
    ∧ (∀ other, pyLower other = pyLower project_name →
        start_time_entry workspace_id env other description
          = start_time_entry workspace_id env project_name description) := by
  refine ⟨?_, ?_, ?_⟩
  · intro h
    have hf : env.projects.find? (fun q => pyLower (q.name.getD "") == pyLower project_name)
        = none := by
      rw [List.find?_eq_none]
      intro p hp
      simpa using h p hp
    simp [start_time_entry, hf]
  · intro p w hf hw
    simp [start_time_entry, hf, hw]
  · intro other h
    simp [start_time_entry, h]

/-- Witness for C7 at a workspace with one project named Dev, requested with
the differently-cased name dEv. -/
theorem start_time_entry_resolution_w :
    envOneProject.projects.find? (fun q => pyLower (q.name.getD "") == pyLower "dEv")
        = some ⟨7, some "Dev"⟩
    ∧ pyInt "42" = some 42
    ∧ start_time_entry "42" envOneProject "dEv" "memo"
        = (Except.ok envOneProject.createResult,
           [ApiCall.getProjects,
            ApiCall.createEntry ⟨"LINE Bot", 42, pyTake "memo" 255, 7, -1⟩]) :=
  ⟨by decide, by decide,
   (start_time_entry_resolution "42" envOneProject "dEv" "memo").2.1
     ⟨7, some "Dev"⟩ 42 (by decide) (by decide)⟩

/-- Claim C8: the report built from the single entry of the specification
example has a summary line for 2024-01-01 totalling 01:00 and a detail line
with the start time 09:00, the project P, the description D and the duration
01:00, the durations being divided as milliseconds. -/
theorem format_report_single_entry :
    format_report [reportEntryExample]
        = "📊 稼働レポート\n📅 2024-01-01: 01:00\n\n詳細:\n01/01 09:00 | P | D | 01:00"
    ∧ splitLines (format_report [reportEntryExample])
        = ["📊 稼働レポート", "📅 2024-01-01: 01:00", "", "詳細:", "01/01 09:00 | P | D | 01:00"] := by
  constructor
  · decide
  · decide

/-- Claim C9: an exception in the per-user body of a scheduler sweep is
caught inside that iteration: even when a designated user errors, the sweep
still visits every user of the mapping in order, and the error shows up as
that single user outcome. -/
theorem sweep_survives_user_error
    (us1 us2 : List (String × Creds)) (uid : String) (c : Creds)
    (envOf : String → UserEnv) (now : Int) (e : String)
    (herr : process_user c (envOf uid) now = Except.error e) :
    (check_users_once (us1 ++ (uid, c) :: us2) envOf now).map Prod.fst
        = us1.map Prod.fst ++ uid :: us2.map Prod.fst
    ∧ (uid, SweepOutcome.errored e) ∈ check_users_once (us1 ++ (uid, c) :: us2) envOf now := by
  constructor
  · rw [check_users_once_fst]
    simp
  · induction us1 with
    | nil => simp [check_users_once, herr]
    | cons kv rest ih =>
      obtain ⟨u2, c2⟩ := kv
      simp only [List.cons_append, check_users_once]
      exact List.mem_cons_of_mem _ ih

/-- Witness for C9: a three-user sweep whose middle user raises KeyError. -/
theorem sweep_survives_user_error_w :
    process_user ⟨"x", "k", "1"⟩ userEnvErr 0 = Except.error "KeyError: start"
    ∧ ((check_users_once
          ([("a", ⟨"a", "k", "1"⟩)] ++ ("x", ⟨"x", "k", "1"⟩) :: [("b", ⟨"b", "k", "1"⟩)])
          (fun _ => userEnvErr) 0).map Prod.fst
        = ["a", "x", "b"]
      ∧ ("x", SweepOutcome.errored "KeyError: start")
          ∈ check_users_once
              ([("a", ⟨"a", "k", "1"⟩)] ++ ("x", ⟨"x", "k", "1"⟩) :: [("b", ⟨"b", "k", "1"⟩)])
              (fun _ => userEnvErr) 0) :=
  ⟨by decide,
   sweep_survives_user_error [("a", ⟨"a", "k", "1"⟩)] [("b", ⟨"b", "k", "1"⟩)]
     "x" ⟨"x", "k", "1"⟩ (fun _ => userEnvErr) 0 "KeyError: start" (by decide)⟩

/-- Claim C10: the status display reads the seconds field of the timedelta,
which excludes whole days, so the reported hour count is the true elapsed
hour count modulo 24 for every running entry that has been running at least
a day. -/
theorem status_elapsed_hours_mod_24
    (store : Store) (uid : String) (env : TogglEnv) (now : Int)
    (c : Creds) (entry : Entry) (s : String) (dt : PyDateTime)
    (hc : get_toggl_credentials store uid = some c)
    (hcur : env.currentEntry = some entry)
    (hdur : entry.duration.getD 0 < 0)
    (hstart : entry.start = some s)
    (hparse : fromisoformat s = some dt)
    (h24 : 86400 ≤ now - toEpoch dt) :
    (handle_status store uid env now).1
      = "🔄 計測中\nプロジェクト: " ++ entry.description.getD "未設定"
        ++ "\n経過時間: " ++ toString (((now - toEpoch dt).fdiv 3600).emod 24) ++ "時間"
        ++ toString (((now - toEpoch dt).emod 3600).fdiv 60) ++ "分" := by
  have h0 : (0 : Int) ≤ now - toEpoch dt := le_trans (by norm_num) h24
  have hh := hours_emod_split (now - toEpoch dt) h0
  have hm : ((now - toEpoch dt).emod 86400).emod 3600 = (now - toEpoch dt).emod 3600 :=
    Int.emod_emod_of_dvd _ ⟨24, by norm_num⟩
  simp [handle_status, hc, hcur, hdur, hstart, hparse, hh, hm]

/-- Witness for C10 at an entry running for 25 hours. -/
theorem status_elapsed_hours_mod_24_w :
    86400 ≤ (1704157200 : Int) - toEpoch dtW
    ∧ (handle_status storeReg "u" envRunning 1704157200).1
        = "🔄 計測中\nプロジェクト: " ++ entryW.description.getD "未設定"
          ++ "\n経過時間: " ++ toString ((((1704157200 : Int) - toEpoch dtW).fdiv 3600).emod 24) ++ "時間"
          ++ toString ((((1704157200 : Int) - toEpoch dtW).emod 3600).fdiv 60) ++ "分" :=
  ⟨by decide,
   status_elapsed_hours_mod_24 storeReg "u" envRunning 1704157200
     ⟨"alice", "key", "42"⟩ entryW "2024-01-01T00:00:00+00:00" dtW
     (by decide) rfl (by decide) rfl (by decide) (by decide)⟩
